import Mathlib

/-!
Verification of the kusion-module-objectstorage module.

The module's own code (`ObjectStorage`, `Generate`, `CompleteConfig`,
`ValidateConfig`, `GetCloudProviderType`, `GenerateAWSResources`,
`generateAWSS3Bucket`, the sentinel errors and package-level constants) is
embedded from `src/src/objectstorage_generator.go` and `src/src/aws_s3.go`.
The host-framework helpers it calls (`module.TerraformProviderRegion`,
`module.TerraformResourceID`, `module.WrapTFResourceToKusionResource`,
`modules.KusionPathDependency`) and the yaml round-trip live outside this
repository; they are modelled from the spec, as marked on each definition.
-/

namespace KusionObjectStorage

/-- A dynamically typed value held in a generic YAML/JSON configuration map
(Go `interface{}`). -/
inductive Value where
  | str (s : String)
  | int (n : Int)
  | bool (b : Bool)
  deriving DecidableEq, Repr

/-- A generic configuration block (`apiv1.GenericConfig` / `apiv1.Accessory`,
Go `map[string]interface{}`), as an association list with unique keys; the Go
map is keyed by strings and lookups go through `List.lookup`. -/
abbrev GenericConfig := List (String × Value)

/-- The module's configuration entity (struct `ObjectStorage` in
`objectstorage_generator.go`): field `Type` has yaml tag `type`, field
`Bucket` has yaml tag `bucket`. -/
structure ObjectStorage where
  type : String
  bucket : String
  deriving DecidableEq, Repr

/-- `module.ProviderConfig`: provider source, version and provider-specific
metadata (e.g. region). -/
structure ProviderConfig where
  Source : String
  Version : String
  ProviderMeta : Option GenericConfig := none
  deriving DecidableEq, Repr

/-- A Kubernetes environment variable (`v1.EnvVar`): name/value pair. -/
structure EnvVar where
  Name : String
  Value : String
  deriving DecidableEq, Repr

/-- `apiv1.Patcher`: the side-channel output carrying environment variables. -/
structure Patcher where
  Environments : List EnvVar
  deriving DecidableEq, Repr

/-- The generic resource envelope (`apiv1.Resource`): a resource-type name, a
computed ID, an attribute map, and the provider metadata it was wrapped with. -/
structure Resource where
  id : String
  resourceType : String
  attributes : List (String × Value)
  providerMeta : Option GenericConfig
  deriving DecidableEq, Repr

/-- `module.GeneratorRequest`: carries the developer-level and platform-level
configuration blocks (each may be nil). -/
structure GeneratorRequest where
  DevConfig : Option GenericConfig
  PlatformConfig : Option GenericConfig
  deriving DecidableEq, Repr

/-- `module.GeneratorResponse`: the resource list plus the optional patcher. -/
structure GeneratorResponse where
  Resources : List Resource
  Patch : Option Patcher
  deriving DecidableEq, Repr

/-- The Go error values the module can return, as a closed enumeration. -/
inductive GoError where
  | emptyAWSProviderRegion
  | emptyCloudProviderType
  | emptyModuleConfigBlock
  | emptyTFProviderVersion
  | invalidTFProviderSource (src : String)
  | yamlUnmarshalTypeError (key : String)
  | unsupportedMysqlType (t : String)
  | unsupportedCloudProviderType (p : String)
  deriving DecidableEq, Repr

/-- The message string of each error value, as formatted by the Go code
(`errors.New` literals and `fmt.Errorf` format strings). -/
def GoError.message : GoError → String
  | .emptyAWSProviderRegion => "empty aws provider region"
  | .emptyCloudProviderType => "empty cloud provider type in mysql module config"
  | .emptyModuleConfigBlock => "empty module config block"
  | .emptyTFProviderVersion => "empty terraform provider version"
  | .invalidTFProviderSource s => "invalid terraform provider source: " ++ s
  | .yamlUnmarshalTypeError k => "yaml: cannot unmarshal value into string field " ++ k
  | .unsupportedMysqlType t => "unsupported mysql type: " ++ t
  | .unsupportedCloudProviderType p => "unsupported cloud provider type: " ++ p

/-- The outcome of a Go computation that may also panic (used where the code
performs an unchecked type assertion). -/
inductive PResult (α : Type) where
  | ok (a : α)
  | err (e : GoError)
  | panicked (msg : String)
  deriving DecidableEq, Repr

deriving instance DecidableEq for Except

/-- One step of splitting a character list at a separator, accumulating the
current group at the head. -/
def splitStep (sep : Char) (c : Char) (acc : List (List Char)) :
    List (List Char) :=
  if c = sep then [] :: acc
  else
    match acc with
    | [] => [[c]]
    | g :: rest => (c :: g) :: rest

/-- Go's `strings.Split` at a single-character separator (used by the host
framework on the provider source string), written by structural recursion over
the character list so that it evaluates inside the kernel. -/
def splitOnChar (sep : Char) (s : String) : List String :=
  (s.data.foldr (splitStep sep) [[]]).map String.mk

/-- Go's `strings.ToLower` on ASCII input (the discriminator comparison in
`Generate`), written by structural recursion so that it evaluates inside the
kernel. -/
def toLower (s : String) : String :=
  String.mk (s.data.map fun c =>
    if 65 ≤ c.toNat ∧ c.toNat ≤ 90 then Char.ofNat (c.toNat + 32) else c)

/-- Modelled from the spec: the host-framework helper
`module.TerraformProviderRegion`, which selects "a cloud-provider region from
a provider config object" — the `region` entry of its provider metadata, or
the empty string when absent. -/
def TerraformProviderRegion (cfg : ProviderConfig) : String :=
  match cfg.ProviderMeta with
  | none => ""
  | some meta =>
    match meta.lookup "region" with
    | some (Value.str s) => s
    | _ => ""

/-- Modelled from the spec: the host-framework helper
`module.TerraformResourceID`, which constructs "a stable resource identifier"
by "combining provider descriptor, resource-type name, and bucket name through
a deterministic, host-defined ID scheme", failing on a malformed provider
descriptor (the spec's "ID construction failure"). -/
def TerraformResourceID (cfg : ProviderConfig) (resType resName : String) :
    Except GoError String :=
  if cfg.Version = "" then .error .emptyTFProviderVersion
  else
    match splitOnChar '/' cfg.Source with
    | [ns, name] => .ok (ns ++ ":" ++ name ++ ":" ++ resType ++ ":" ++ resName)
    | [_, ns, name] => .ok (ns ++ ":" ++ name ++ ":" ++ resType ++ ":" ++ resName)
    | _ => .error (.invalidTFProviderSource cfg.Source)

/-- Modelled from the spec: the host-framework helper
`module.WrapTFResourceToKusionResource`, which wraps a provider identity, a
resource-type name, a computed ID and an attribute map "into a generic
resource envelope understood by the host", failing on a malformed provider
descriptor (the spec's "envelope-wrapping failure"). -/
def WrapTFResourceToKusionResource (cfg : ProviderConfig) (resType id : String)
    (attrs : List (String × Value)) : Except GoError Resource :=
  if cfg.Version = "" then .error .emptyTFProviderVersion
  else .ok ⟨id, resType, attrs, cfg.ProviderMeta⟩

/-- Modelled from the spec: the host-framework helper
`modules.KusionPathDependency`, which produces the "string placeholder
representing the value of attribute X on resource Y once resource Y has been
realized" — a string-templated cross-resource reference token built from the
resource ID and the attribute name. -/
def KusionPathDependency (id name : String) : String :=
  "$kusion_path." ++ id ++ "." ++ name

/-- Sentinel error `ErrEmptyAWSProviderRegion` from `aws_s3.go`. -/
def ErrEmptyAWSProviderRegion : GoError := .emptyAWSProviderRegion

/-- Sentinel error `ErrEmptyCloudProviderType` from
`objectstorage_generator.go`. -/
def ErrEmptyCloudProviderType : GoError := .emptyCloudProviderType

/-- Sentinel error `workspace.ErrEmptyModuleConfigBlock` from the host
framework. -/
def ErrEmptyModuleConfigBlock : GoError := .emptyModuleConfigBlock

/-- Package-level constant `awsRegionEnv` from `aws_s3.go`. -/
def awsRegionEnv : String := "AWS_REGION"

/-- Package-level constant `awsS3Bucket` from `aws_s3.go`. -/
def awsS3Bucket : String := "aws_s3_bucket"

/-- Package-level `defaultAWSProviderCfg` from `aws_s3.go`: only `Source` and
`Version` are set, no provider metadata. -/
def defaultAWSProviderCfg : ProviderConfig :=
  { Source := "hashicorp/aws", Version := "5.55.0" }

/-- Modelled from the spec: one yaml marshal/unmarshal round-trip of a generic
config map onto the `ObjectStorage` struct ("serializing each map to an
intermediate textual form and deserializing it onto the struct"): the keys
`type` and `bucket` overwrite the corresponding fields when present with a
string value, a non-string value fails deserialization, unknown keys are
ignored, and absent keys leave the field unchanged. -/
def fieldValue (cur : String) (cfg : GenericConfig) (key : String) :
    Except GoError String :=
  match cfg.lookup key with
  | none => .ok cur
  | some (.str s) => .ok s
  | some _ => .error (.yamlUnmarshalTypeError key)

/-- Modelled from the spec: the unmarshal step applied to both fields of the
receiver, see `fieldValue`. -/
def unmarshalOnto (os : ObjectStorage) (cfg : GenericConfig) :
    Except GoError ObjectStorage :=
  match fieldValue os.type cfg "type", fieldValue os.bucket cfg "bucket" with
  | .ok t, .ok b => .ok { type := t, bucket := b }
  | .error e, _ => .error e
  | .ok _, .error e => .error e

/-- `CompleteConfig` from `objectstorage_generator.go`: apply the developer
config first (when non-nil), then the platform config (when non-nil), each
through a yaml round-trip onto the receiver; returns the mutated receiver. -/
def ObjectStorage.CompleteConfig (os : ObjectStorage)
    (devConfig platformConfig : Option GenericConfig) :
    Except GoError ObjectStorage :=
  match (match devConfig with
         | none => Except.ok os
         | some cfg => unmarshalOnto os cfg) with
  | .error e => .error e
  | .ok os1 =>
    match platformConfig with
    | none => .ok os1
    | some cfg => unmarshalOnto os1 cfg

/-- `ValidateConfig` from `objectstorage_generator.go`: always returns nil. -/
def ObjectStorage.ValidateConfig (_os : ObjectStorage) : Option GoError := none

/-- `GetCloudProviderType` from `objectstorage_generator.go`: nil map is the
`ErrEmptyModuleConfigBlock` error, an absent `cloud` key is the
`ErrEmptyCloudProviderType` error, a present key goes through the unchecked
type assertion `cloud.(string)`, which panics on a non-string value. -/
def GetCloudProviderType (platformConfig : Option GenericConfig) :
    PResult String :=
  match platformConfig with
  | none => .err ErrEmptyModuleConfigBlock
  | some cfg =>
    match cfg.lookup "cloud" with
    | some (Value.str s) => .ok s
    | some _ => .panicked "interface conversion: interface is not string"
    | none => .err ErrEmptyCloudProviderType

/-- `generateAWSS3Bucket` from `aws_s3.go`: attribute map with the single
`bucket` entry, Terraform resource ID from the provider config, the resource
type and the bucket name, region attached as provider metadata, wrapped into
the resource envelope; returns the resource and its ID. -/
def ObjectStorage.generateAWSS3Bucket (os : ObjectStorage)
    (awsProviderCfg : ProviderConfig) (region : String) :
    Except GoError (Resource × String) :=
  let resAttrs : List (String × Value) := [("bucket", Value.str os.bucket)]
  match TerraformResourceID awsProviderCfg awsS3Bucket os.bucket with
  | .error e => .error e
  | .ok id =>
    let cfg := { awsProviderCfg with
                   ProviderMeta := some [("region", Value.str region)] }
    match WrapTFResourceToKusionResource cfg awsS3Bucket id resAttrs with
    | .error e => .error e
    | .ok resource => .ok (resource, id)

/-- `GenerateAWSResources` from `aws_s3.go`. The unused `request` parameter is
kept; `awsRegionEnvValue` stands for `os.Getenv("AWS_REGION")` (Go's `Getenv`
returns the empty string for an unset variable). Region resolution: provider
config region first, then the environment variable, then the sentinel error.
On success: the single S3 bucket resource and a patcher with the two
environment variables holding cross-resource reference tokens. -/
def ObjectStorage.GenerateAWSResources (os : ObjectStorage)
    (_request : GeneratorRequest) (awsRegionEnvValue : String) :
    Except GoError (List Resource × Patcher) :=
  let awsProviderCfg := defaultAWSProviderCfg
  let region0 := TerraformProviderRegion awsProviderCfg
  let region := if region0 = "" then awsRegionEnvValue else region0
  if region = "" then .error ErrEmptyAWSProviderRegion
  else
    match os.generateAWSS3Bucket awsProviderCfg region with
    | .error e => .error e
    | .ok (res, id) =>
      let bucketDomainName := KusionPathDependency id "bucket_domain_name"
      let bucketRegionalDomainName :=
        KusionPathDependency id "bucket_regional_domain_name"
      let envVars : List EnvVar :=
        [⟨"KUSION_AWS_S3_BUCKET_DOMAIN_NAME", bucketDomainName⟩,
         ⟨"KUSION_AWS_S3_BUCKET_REGIONAL_DOMAIN_NAME",
          bucketRegionalDomainName⟩]
      .ok ([res], ⟨envVars⟩)

/-- The body of `Generate` from `objectstorage_generator.go`, before the
deferred recover is taken into account: complete the config, validate it,
dispatch on the lower-cased type and provider discriminators, and run the AWS
generator; a panic below (from `GetCloudProviderType`) propagates. -/
def ObjectStorage.generateInner (os : ObjectStorage)
    (request : GeneratorRequest) (awsRegionEnvValue : String) :
    PResult GeneratorResponse :=
  match os.CompleteConfig request.DevConfig request.PlatformConfig with
  | .error e => .err e
  | .ok os1 =>
    match os1.ValidateConfig with
    | some e => .err e
    | none =>
      if toLower os1.type = "cloud" then
        match GetCloudProviderType request.PlatformConfig with
        | .panicked m => .panicked m
        | .err e => .err e
        | .ok providerType =>
          if toLower providerType = "aws" then
            match os1.GenerateAWSResources request awsRegionEnvValue with
            | .error e => .err e
            | .ok (resources, patcher) => .ok ⟨resources, some patcher⟩
          else .err (.unsupportedCloudProviderType providerType)
      else .err (.unsupportedMysqlType os1.type)

/-- `Generate` from `objectstorage_generator.go`, with the deferred recover:
the pair is (response, error); the recover converts a panic into the zero
values of the unnamed results, i.e. a nil response and a nil error. -/
def ObjectStorage.Generate (os : ObjectStorage) (request : GeneratorRequest)
    (awsRegionEnvValue : String) :
    Option GeneratorResponse × Option GoError :=
  match os.generateInner request awsRegionEnvValue with
  | .ok resp => (some resp, none)
  | .err e => (none, some e)
  | .panicked _ => (none, none)

/-- The Terraform resource ID computed for the default AWS provider config
and a bucket name. -/
theorem terraformResourceID_default (b : String) :
    TerraformResourceID defaultAWSProviderCfg awsS3Bucket b =
      .ok ("hashicorp:aws:aws_s3_bucket:" ++ b) := rfl

/-- The single S3 bucket resource built by `generateAWSS3Bucket` on the
default provider config. -/
theorem generateAWSS3Bucket_default (os : ObjectStorage) (region : String) :
    os.generateAWSS3Bucket defaultAWSProviderCfg region =
      .ok (⟨"hashicorp:aws:aws_s3_bucket:" ++ os.bucket, awsS3Bucket,
            [("bucket", Value.str os.bucket)],
            some [("region", Value.str region)]⟩,
           "hashicorp:aws:aws_s3_bucket:" ++ os.bucket) := rfl

/-- Full description of a successful `GenerateAWSResources` run: with a
non-empty environment region it returns the single bucket resource and the
patcher with the two reference-token environment variables. -/
theorem generateAWSResources_ok (os : ObjectStorage) (req : GeneratorRequest)
    (env : String) (h : env ≠ "") :
    os.GenerateAWSResources req env =
      .ok ([⟨"hashicorp:aws:aws_s3_bucket:" ++ os.bucket, awsS3Bucket,
             [("bucket", Value.str os.bucket)],
             some [("region", Value.str env)]⟩],
           ⟨[⟨"KUSION_AWS_S3_BUCKET_DOMAIN_NAME",
              KusionPathDependency ("hashicorp:aws:aws_s3_bucket:" ++ os.bucket)
                "bucket_domain_name"⟩,
             ⟨"KUSION_AWS_S3_BUCKET_REGIONAL_DOMAIN_NAME",
              KusionPathDependency ("hashicorp:aws:aws_s3_bucket:" ++ os.bucket)
                "bucket_regional_domain_name"⟩]⟩) := by
  simp only [ObjectStorage.GenerateAWSResources, generateAWSS3Bucket_default,
    show TerraformProviderRegion defaultAWSProviderCfg = "" from rfl,
    if_pos rfl, if_true]
  rw [if_neg h]

/-- C1: for every ObjectStorage with Bucket "mybucket" whose region resolves
to "us-east-1" (here through the AWS_REGION environment variable, the default
provider config carrying no region), GenerateAWSResources returns exactly one
resource of type aws_s3_bucket whose attribute map is exactly
bucket ↦ "mybucket", together with a patcher carrying exactly the two
environment variables KUSION_AWS_S3_BUCKET_DOMAIN_NAME and
KUSION_AWS_S3_BUCKET_REGIONAL_DOMAIN_NAME, whose values are the
cross-resource reference tokens built from the bucket's computed resource ID
and the output attributes bucket_domain_name and
bucket_regional_domain_name. -/
theorem C1_generateAWSResources_mybucket (os : ObjectStorage)
    (req : GeneratorRequest) (hb : os.bucket = "mybucket") :
    TerraformResourceID defaultAWSProviderCfg awsS3Bucket "mybucket" =
      .ok "hashicorp:aws:aws_s3_bucket:mybucket" ∧
    os.GenerateAWSResources req "us-east-1" =
      .ok ([⟨"hashicorp:aws:aws_s3_bucket:mybucket", awsS3Bucket,
             [("bucket", Value.str "mybucket")],
             some [("region", Value.str "us-east-1")]⟩],
           ⟨[⟨"KUSION_AWS_S3_BUCKET_DOMAIN_NAME",
              KusionPathDependency "hashicorp:aws:aws_s3_bucket:mybucket"
                "bucket_domain_name"⟩,
             ⟨"KUSION_AWS_S3_BUCKET_REGIONAL_DOMAIN_NAME",
              KusionPathDependency "hashicorp:aws:aws_s3_bucket:mybucket"
                "bucket_regional_domain_name"⟩]⟩) := by
  refine ⟨rfl, ?_⟩
  rw [generateAWSResources_ok os req "us-east-1" (by decide), hb]
  rfl

/-- Witness for C1 at the concrete ObjectStorage with type cloud and bucket
mybucket. -/
theorem C1_generateAWSResources_mybucket_witness :
    (ObjectStorage.mk "cloud" "mybucket").GenerateAWSResources ⟨none, none⟩
        "us-east-1" =
      .ok ([⟨"hashicorp:aws:aws_s3_bucket:mybucket", awsS3Bucket,
             [("bucket", Value.str "mybucket")],
             some [("region", Value.str "us-east-1")]⟩],
           ⟨[⟨"KUSION_AWS_S3_BUCKET_DOMAIN_NAME",
              KusionPathDependency "hashicorp:aws:aws_s3_bucket:mybucket"
                "bucket_domain_name"⟩,
             ⟨"KUSION_AWS_S3_BUCKET_REGIONAL_DOMAIN_NAME",
              KusionPathDependency "hashicorp:aws:aws_s3_bucket:mybucket"
                "bucket_regional_domain_name"⟩]⟩) :=
  (C1_generateAWSResources_mybucket ⟨"cloud", "mybucket"⟩ ⟨none, none⟩ rfl).2

/-- C3: GenerateAWSResources fails with exactly the sentinel error
ErrEmptyAWSProviderRegion when the AWS_REGION environment variable is unset
or empty (Go's Getenv returns the empty string for an unset variable, and the
default provider config carries no region); with a non-empty region from the
environment the call succeeds, so the sentinel error is not returned. -/
theorem C3_empty_region_error (os : ObjectStorage) (req : GeneratorRequest)
    (env : String) :
    (env = "" →
      os.GenerateAWSResources req env = .error ErrEmptyAWSProviderRegion) ∧
    (env ≠ "" →
      os.GenerateAWSResources req env ≠ .error ErrEmptyAWSProviderRegion) := by
  constructor
  · intro he
    subst he
    rfl
  · intro h
    rw [generateAWSResources_ok os req env h]
    intro hcontra
    exact Except.noConfusion hcontra

/-- Witness for C3 at a concrete ObjectStorage, at the empty and at a
non-empty region value. -/
theorem C3_empty_region_error_witness :
    (ObjectStorage.mk "cloud" "b").GenerateAWSResources ⟨none, none⟩ "" =
      .error ErrEmptyAWSProviderRegion ∧
    (ObjectStorage.mk "cloud" "b").GenerateAWSResources ⟨none, none⟩
        "us-east-1" ≠ .error ErrEmptyAWSProviderRegion :=
  ⟨(C3_empty_region_error ⟨"cloud", "b"⟩ ⟨none, none⟩ "").1 rfl,
   (C3_empty_region_error ⟨"cloud", "b"⟩ ⟨none, none⟩ "us-east-1").2
     (by decide)⟩

/-- C5: GetCloudProviderType returns the empty module config block error on a
nil platform config, the distinct empty cloud provider type error on a
non-nil config without a cloud key, and the string value with no error when
the cloud key holds a string. -/
theorem C5_getCloudProviderType :
    GetCloudProviderType none = .err ErrEmptyModuleConfigBlock ∧
    (∀ cfg : GenericConfig, cfg.lookup "cloud" = none →
      GetCloudProviderType (some cfg) = .err ErrEmptyCloudProviderType) ∧
    (∀ (cfg : GenericConfig) (s : String),
      cfg.lookup "cloud" = some (Value.str s) →
      GetCloudProviderType (some cfg) = .ok s) := by
  refine ⟨rfl, ?_, ?_⟩
  · intro cfg h
    simp [GetCloudProviderType, h]
  · intro cfg s h
    simp [GetCloudProviderType, h]

/-- Witness for C5 at concrete platform config maps. -/
theorem C5_getCloudProviderType_witness :
    GetCloudProviderType (some [("x", Value.str "y")]) =
      .err ErrEmptyCloudProviderType ∧
    GetCloudProviderType (some [("cloud", Value.str "aws")]) = .ok "aws" :=
  ⟨C5_getCloudProviderType.2.1 [("x", Value.str "y")] rfl,
   C5_getCloudProviderType.2.2 [("cloud", Value.str "aws")] "aws" rfl⟩

/-- C6: a platform config whose cloud key holds a non-string value, with
merged type cloud, makes the unchecked type assertion in GetCloudProviderType
panic, and the deferred recover in Generate turns the panic into a nil
response with a nil error. -/
theorem C6_panic_recovered :
    GetCloudProviderType (some [("cloud", Value.int 1)]) =
      .panicked "interface conversion: interface is not string" ∧
    (ObjectStorage.mk "" "").Generate
        ⟨some [("type", Value.str "cloud")], some [("cloud", Value.int 1)]⟩
        "" = (none, none) :=
  ⟨rfl, by decide⟩

/-- C7: the default AWS provider config yields no region, so the region used
by GenerateAWSResources is always exactly the AWS_REGION environment value:
the call fails with the empty-region sentinel if and only if that value is
empty, and on success every returned resource carries exactly that value as
its region metadata. -/
theorem C7_region_always_from_env (os : ObjectStorage)
    (req : GeneratorRequest) (env : String) :
    TerraformProviderRegion defaultAWSProviderCfg = "" ∧
    (os.GenerateAWSResources req env = .error ErrEmptyAWSProviderRegion ↔
      env = "") ∧
    (∀ rs p, os.GenerateAWSResources req env = .ok (rs, p) →
      ∀ r ∈ rs, r.providerMeta = some [("region", Value.str env)]) := by
  refine ⟨rfl, ⟨?_, ?_⟩, ?_⟩
  · intro h
    by_contra hne
    rw [generateAWSResources_ok os req env hne] at h
    exact Except.noConfusion h
  · intro he
    subst he
    rfl
  · intro rs p h r hr
    by_cases he : env = ""
    · subst he
      rw [show os.GenerateAWSResources req "" =
            .error ErrEmptyAWSProviderRegion from rfl] at h
      exact Except.noConfusion h
    · rw [generateAWSResources_ok os req env he] at h
      simp only [Except.ok.injEq, Prod.mk.injEq] at h
      obtain ⟨hrs, -⟩ := h
      subst hrs
      simp only [List.mem_singleton] at hr
      subst hr
      rfl

/-- Witness for C7: the empty-region direction at a concrete input and the
region-metadata fact at a concrete successful run. -/
theorem C7_region_always_from_env_witness :
    (ObjectStorage.mk "" "").GenerateAWSResources ⟨none, none⟩ "" =
      .error ErrEmptyAWSProviderRegion ∧
    (Resource.mk "hashicorp:aws:aws_s3_bucket:b" awsS3Bucket
        [("bucket", Value.str "b")]
        (some [("region", Value.str "eu-west-1")])).providerMeta =
      some [("region", Value.str "eu-west-1")] :=
  ⟨(C7_region_always_from_env ⟨"", ""⟩ ⟨none, none⟩ "").2.1.mpr rfl,
   (C7_region_always_from_env (ObjectStorage.mk "cloud" "b") ⟨none, none⟩
       "eu-west-1").2.2
     [Resource.mk "hashicorp:aws:aws_s3_bucket:b" awsS3Bucket
        [("bucket", Value.str "b")] (some [("region", Value.str "eu-west-1")])]
     ⟨[⟨"KUSION_AWS_S3_BUCKET_DOMAIN_NAME",
        KusionPathDependency "hashicorp:aws:aws_s3_bucket:b"
          "bucket_domain_name"⟩,
       ⟨"KUSION_AWS_S3_BUCKET_REGIONAL_DOMAIN_NAME",
        KusionPathDependency "hashicorp:aws:aws_s3_bucket:b"
          "bucket_regional_domain_name"⟩]⟩
     (by decide)
     (Resource.mk "hashicorp:aws:aws_s3_bucket:b" awsS3Bucket
        [("bucket", Value.str "b")] (some [("region", Value.str "eu-west-1")]))
     (by decide)⟩

/-- C2: when developer and platform config maps share a key, the field of the
completed ObjectStorage corresponding to that key holds the platform value:
the developer config is applied first and the platform config second, so for
any successful completion the platform map's string value for bucket or type
is what the result carries (in particular when the developer map also sets
that key). -/
theorem C2_platform_overrides_dev (os os1 : ObjectStorage)
    (dev plat : GenericConfig)
    (h : os.CompleteConfig (some dev) (some plat) = .ok os1) :
    (∀ p, plat.lookup "bucket" = some (Value.str p) → os1.bucket = p) ∧
    (∀ t, plat.lookup "type" = some (Value.str t) → os1.type = t) := by
  unfold ObjectStorage.CompleteConfig at h
  dsimp only at h
  split at h
  · exact absurd h (by simp)
  · rename_i osd hdev
    unfold unmarshalOnto at h
    split at h
    · rename_i t b hft hfb
      injection h with h1
      subst h1
      constructor
      · intro p hp
        unfold fieldValue at hfb
        rw [hp] at hfb
        dsimp only at hfb
        injection hfb with hfb
        exact hfb.symm
      · intro t0 ht0
        unfold fieldValue at hft
        rw [ht0] at hft
        dsimp only at hft
        injection hft with hft
        exact hft.symm
    · exact absurd h (by simp)
    · exact absurd h (by simp)

/-- Witness for C2: a concrete developer map and platform map both setting
type and bucket; the completed value carries the platform values. -/
theorem C2_platform_overrides_dev_witness :
    (ObjectStorage.mk "cloud" "platb").bucket = "platb" ∧
    (ObjectStorage.mk "cloud" "platb").type = "cloud" :=
  ⟨(C2_platform_overrides_dev (ObjectStorage.mk "" "")
      (ObjectStorage.mk "cloud" "platb")
      [("type", Value.str "local"), ("bucket", Value.str "devb")]
      [("type", Value.str "cloud"), ("bucket", Value.str "platb")]
      (by decide)).1 "platb" (by decide),
   (C2_platform_overrides_dev (ObjectStorage.mk "" "")
      (ObjectStorage.mk "cloud" "platb")
      [("type", Value.str "local"), ("bucket", Value.str "devb")]
      [("type", Value.str "cloud"), ("bucket", Value.str "platb")]
      (by decide)).2 "cloud" (by decide)⟩

/-- C4: for a merged configuration whose type is not cloud (case-insensitively)
Generate fails with the unsupported-type error naming the actual type value
and returns no resources; for type cloud with an extracted provider that is
not aws (case-insensitively) it fails with the unsupported-provider error
naming the actual provider value and returns no resources; both messages
contain the offending value. -/
theorem C4_generate_unsupported (os os1 : ObjectStorage)
    (req : GeneratorRequest) (env : String)
    (hc : os.CompleteConfig req.DevConfig req.PlatformConfig = .ok os1) :
    (toLower os1.type ≠ "cloud" →
      os.Generate req env =
        (none, some (GoError.unsupportedMysqlType os1.type)) ∧
      ∃ pre, (GoError.unsupportedMysqlType os1.type).message =
        pre ++ os1.type) ∧
    (∀ pt, toLower os1.type = "cloud" →
      GetCloudProviderType req.PlatformConfig = .ok pt →
      toLower pt ≠ "aws" →
      os.Generate req env =
        (none, some (GoError.unsupportedCloudProviderType pt)) ∧
      ∃ pre, (GoError.unsupportedCloudProviderType pt).message = pre ++ pt) := by
  constructor
  · intro ht
    refine ⟨?_, "unsupported mysql type: ", rfl⟩
    unfold ObjectStorage.Generate ObjectStorage.generateInner
    rw [hc]
    dsimp only [ObjectStorage.ValidateConfig]
    rw [if_neg ht]
  · intro pt ht hp hpa
    refine ⟨?_, "unsupported cloud provider type: ", rfl⟩
    unfold ObjectStorage.Generate ObjectStorage.generateInner
    rw [hc]
    dsimp only [ObjectStorage.ValidateConfig]
    rw [if_pos ht, hp]
    dsimp only
    rw [if_neg hpa]

/-- Witness for C4: Generate at a concrete unsupported type and at a concrete
unimplemented cloud provider. -/
theorem C4_generate_unsupported_witness :
    (ObjectStorage.mk "" "").Generate
        ⟨some [("type", Value.str "unsupported")], none⟩ "" =
      (none, some (GoError.unsupportedMysqlType "unsupported")) ∧
    (ObjectStorage.mk "" "").Generate
        ⟨some [("type", Value.str "cloud")], some [("cloud", Value.str "gcp")]⟩
        "" =
      (none, some (GoError.unsupportedCloudProviderType "gcp")) :=
  ⟨((C4_generate_unsupported (ObjectStorage.mk "" "")
      (ObjectStorage.mk "unsupported" "")
      ⟨some [("type", Value.str "unsupported")], none⟩ "" (by decide)).1
      (by decide)).1,
   ((C4_generate_unsupported (ObjectStorage.mk "" "")
      (ObjectStorage.mk "cloud" "")
      ⟨some [("type", Value.str "cloud")], some [("cloud", Value.str "gcp")]⟩
      "" (by decide)).2 "gcp" (by decide) (by decide) (by decide)).1⟩

/-- C8: CompleteConfig with both configs nil returns success and leaves the
receiver ObjectStorage unchanged, in particular a zero-valued receiver stays
at its zero value. -/
theorem C8_completeConfig_nil_nil (os : ObjectStorage) :
    os.CompleteConfig none none = .ok os := rfl

/-- C9: ValidateConfig returns success on every ObjectStorage value; it
rejects nothing. -/
theorem C9_validateConfig_noop (os : ObjectStorage) :
    os.ValidateConfig = none := rfl

/-- C10: under the same AWS_REGION environment value, GenerateAWSResources
returns identical output for any two requests: the request parameter has no
influence on the result. -/
theorem C10_request_noninterference (os : ObjectStorage) (env : String)
    (r1 r2 : GeneratorRequest) :
    os.GenerateAWSResources r1 env = os.GenerateAWSResources r2 env := rfl

end KusionObjectStorage
